import Mathlib

/-!
Shallow embedding of the risk-scoring and fairness-auditing core of
`services/ml-recommendation-svc` (files `src/models/student_risk_model.py`
and `src/services/bias_detection.py`).

Conventions of the embedding:
* Python floats are modelled as exact rationals (`ℚ`); the decimal literals
  of the source are exactly representable.
* Python dicts keyed by strings are modelled as association lists with a
  first-match lookup (`alookup`).
* `math.sqrt` and `scipy.stats.norm.cdf`, which are irrational-valued, are
  passed as explicit function parameters (`sqrtFn`, `normCdf`); no claim
  depends on their values.
* The trained classifier (`model.predict_proba` composed with
  `scaler.transform`) is a black box and is passed as a `score` parameter.
* Decimal string formatting (`f"{x:.2f}"`) is abstracted as `toString`;
  explanation strings are presentation-only and no claim inspects them.
* `async` I/O (redis get/set, history) is modelled by passing the values the
  store would return (`cached`, `previous`) as parameters; an uncaught
  Python exception is modelled as `Except.error`.
-/

namespace StudentRiskModel

/-- `RiskLevel` enum of the source. -/
inductive RiskLevel
  | low
  | moderate
  | high
  | critical
deriving DecidableEq

/-- The `.value` string of a `RiskLevel` member. -/
def RiskLevel.value : RiskLevel → String
  | .low => "low"
  | .moderate => "moderate"
  | .high => "high"
  | .critical => "critical"

/-- `RiskLevel(s)` construction from a string; raises (here: `none`) on an
unknown value. -/
def RiskLevel.ofValue : String → Option RiskLevel
  | "low" => some .low
  | "moderate" => some .moderate
  | "high" => some .high
  | "critical" => some .critical
  | _ => none

/-- `RiskTrend` enum of the source. -/
inductive RiskTrend
  | increasing
  | stable
  | decreasing
deriving DecidableEq

/-- The `.value` string of a `RiskTrend` member. -/
def RiskTrend.value : RiskTrend → String
  | .increasing => "increasing"
  | .stable => "stable"
  | .decreasing => "decreasing"

/-- `RiskTrend(s)` construction from a string. -/
def RiskTrend.ofValue : String → Option RiskTrend
  | "increasing" => some .increasing
  | "stable" => some .stable
  | "decreasing" => some .decreasing
  | _ => none

/-- `FeatureCategory` enum of the source. -/
inductive FeatureCategory
  | academic
  | engagement
  | behavioral
  | temporal
deriving DecidableEq

/-- The `.value` string of a `FeatureCategory` member. -/
def FeatureCategory.value : FeatureCategory → String
  | .academic => "academic"
  | .engagement => "engagement"
  | .behavioral => "behavioral"
  | .temporal => "temporal"

/-- `FeatureCategory(s)` construction from a string. -/
def FeatureCategory.ofValue : String → Option FeatureCategory
  | "academic" => some .academic
  | "engagement" => some .engagement
  | "behavioral" => some .behavioral
  | "temporal" => some .temporal
  | _ => none

/-- Iteration order of `FeatureCategory` members. -/
def FeatureCategory.all : List FeatureCategory :=
  [.academic, .engagement, .behavioral, .temporal]

/-- The `float | str` type of `current_value` in the source dataclasses. -/
inductive FVal
  | num (q : ℚ)
  | str (s : String)
deriving DecidableEq

/-- `FeatureDefinition` dataclass of the source. -/
structure FeatureDefinition where
  name : String
  category : FeatureCategory
  description : String
  risk_direction : String
  threshold_low : Option ℚ := none
  threshold_high : Option ℚ := none
  importance_weight : ℚ := 1
  recommendation_template : Option String := none
deriving DecidableEq

/-- The static `RISK_FEATURES` catalog of the source (names, categories,
directions, thresholds and weights copied verbatim). -/
def RISK_FEATURES : List FeatureDefinition := [
  { name := "current_mastery", category := .academic,
    description := "Current overall mastery level across all skills",
    risk_direction := "low_is_risk",
    threshold_low := some 0.4, threshold_high := some 0.7,
    importance_weight := 0.15,
    recommendation_template := some "Consider focused practice on skills below 50% mastery" },
  { name := "mastery_trend_7d", category := .academic,
    description := "Change in mastery level over the last 7 days",
    risk_direction := "low_is_risk",
    threshold_low := some (-0.1), threshold_high := some 0.05,
    importance_weight := 0.12,
    recommendation_template := some "Mastery is declining; review recent learning activities" },
  { name := "skill_gaps_count", category := .academic,
    description := "Number of skills below 50% mastery",
    risk_direction := "high_is_risk",
    threshold_low := some 2, threshold_high := some 5,
    importance_weight := 0.08,
    recommendation_template := some "Target the \x7bvalue\x7d skills that need the most improvement" },
  { name := "correct_first_attempt_rate", category := .academic,
    description := "Proportion of questions answered correctly on first attempt",
    risk_direction := "low_is_risk",
    threshold_low := some 0.4, threshold_high := some 0.7,
    importance_weight := 0.07,
    recommendation_template := some "Consider prerequisite skill review before new content" },
  { name := "mastery_vs_class", category := .academic,
    description := "Performance relative to class average",
    risk_direction := "low_is_risk",
    threshold_low := some (-0.2), threshold_high := some 0.0,
    importance_weight := 0.05,
    recommendation_template := some "Student may benefit from peer tutoring or additional support" },
  { name := "days_since_last_session", category := .engagement,
    description := "Number of days since last learning session",
    risk_direction := "high_is_risk",
    threshold_low := some 3, threshold_high := some 7,
    importance_weight := 0.11,
    recommendation_template := some "Re-engage student with motivating content or check-in" },
  { name := "session_frequency_7d", category := .engagement,
    description := "Number of learning sessions in the last 7 days",
    risk_direction := "low_is_risk",
    threshold_low := some 2, threshold_high := some 5,
    importance_weight := 0.10,
    recommendation_template := some "Encourage more frequent, shorter practice sessions" },
  { name := "completion_rate", category := .engagement,
    description := "Proportion of assigned activities completed",
    risk_direction := "low_is_risk",
    threshold_low := some 0.5, threshold_high := some 0.8,
    importance_weight := 0.09,
    recommendation_template := some "Break down assignments into smaller, achievable goals" },
  { name := "session_abandonment_rate", category := .engagement,
    description := "Proportion of sessions ended early without completion",
    risk_direction := "high_is_risk",
    threshold_low := some 0.1, threshold_high := some 0.3,
    importance_weight := 0.06,
    recommendation_template := some "Investigate potential frustration or distraction issues" },
  { name := "avg_session_duration", category := .engagement,
    description := "Average time spent per session in minutes",
    risk_direction := "low_is_risk",
    threshold_low := some 5, threshold_high := some 15,
    importance_weight := 0.04,
    recommendation_template := some "Encourage sustained engagement with appropriate breaks" },
  { name := "frustration_signals", category := .behavioral,
    description := "Detected frustration events (rapid wrong answers, resets)",
    risk_direction := "high_is_risk",
    threshold_low := some 3, threshold_high := some 8,
    importance_weight := 0.08,
    recommendation_template := some "Provide scaffolding or reduce difficulty temporarily" },
  { name := "help_request_rate", category := .behavioral,
    description := "Rate of help/hint requests per activity",
    risk_direction := "high_is_risk",
    threshold_low := some 0.3, threshold_high := some 0.6,
    importance_weight := 0.04,
    recommendation_template := some "Consider if content is at appropriate difficulty level" },
  { name := "hint_dependency_ratio", category := .behavioral,
    description := "Ratio of correct answers following hints to total correct",
    risk_direction := "high_is_risk",
    threshold_low := some 0.3, threshold_high := some 0.6,
    importance_weight := 0.03,
    recommendation_template := some "Gradually reduce hint availability to build independence" },
  { name := "time_of_day_variance", category := .temporal,
    description := "Consistency of learning time (lower is more consistent)",
    risk_direction := "high_is_risk",
    threshold_low := some 2, threshold_high := some 6,
    importance_weight := 0.02,
    recommendation_template := some "Help establish consistent learning routine" },
  { name := "weekend_engagement_ratio", category := .temporal,
    description := "Ratio of weekend to weekday engagement",
    risk_direction := "low_is_risk",
    threshold_low := some 0.1, threshold_high := some 0.5,
    importance_weight := 0.01,
    recommendation_template := some "Encourage balanced learning schedule" }
]

end StudentRiskModel

/-- JSON values, the image of `json.dumps`/`json.loads`.  Numbers are kept as
rationals (JSON round-trips Python floats exactly). -/
inductive Json
  | null
  | bool (b : Bool)
  | num (q : ℚ)
  | str (s : String)
  | arr (xs : List Json)
  | obj (kvs : List (String × Json))

/-- First-match association-list lookup, modelling `dict.get` (dict keys are
unique, so first match equals the dict entry). -/
def alookup {α : Type} (k : String) : List (String × α) → Option α
  | [] => none
  | (k', v) :: rest => if k' = k then some v else alookup k rest

namespace StudentRiskModel

/-- A feature dict `dict[str, float]` passed to the scoring engine. -/
def Features : Type := List (String × ℚ)

/-- `_normalize_risk_contribution`: map a raw feature value to a `[0,1]`
risk contribution using thresholds and direction. -/
def normalize_risk_contribution (fd : FeatureDefinition) (value : ℚ) : ℚ :=
  match fd.threshold_low, fd.threshold_high with
  | some tl, some th =>
    if fd.risk_direction = "high_is_risk" then
      if value ≤ tl then 0
      else if value ≥ th then 1
      else (value - tl) / (th - tl)
    else
      if value ≥ th then 0
      else if value ≤ tl then 1
      else 1 - (value - tl) / (th - tl)
  | _, _ => 0.5

/-- `_get_risk_level`: categorize a risk score into a risk level. -/
def get_risk_level (risk_score : ℚ) : RiskLevel :=
  if risk_score ≥ 0.75 then .critical
  else if risk_score ≥ 0.5 then .high
  else if risk_score ≥ 0.25 then .moderate
  else .low

/-- `RiskFactor` dataclass of the source. -/
structure RiskFactor where
  feature : String
  category : FeatureCategory
  description : String
  current_value : FVal
  contribution : ℚ
  severity : String
  threshold : Option ℚ := none
  recommendation : Option String := none
deriving DecidableEq

/-- `ProtectiveFactor` dataclass of the source. -/
structure ProtectiveFactor where
  feature : String
  category : FeatureCategory
  description : String
  current_value : FVal
  contribution : ℚ
deriving DecidableEq

/-- `RiskPrediction` dataclass of the source.  The timestamp is kept as its
ISO-format string (its value never enters any computation). -/
structure RiskPrediction where
  student_id : String
  timestamp : String
  risk_score : ℚ
  risk_level : RiskLevel
  confidence : ℚ
  category_scores : List (String × ℚ)
  top_risk_factors : List RiskFactor
  protective_factors : List ProtectiveFactor
  risk_trend : RiskTrend
  previous_risk_score : Option ℚ := none
  score_change : Option ℚ := none
  model_version : String := "1.0.0"
deriving DecidableEq

/-- `_calculate_confidence` of `StudentRiskModel`: confidence from data
completeness and prediction certainty. -/
def calculate_confidence (features : Features) (risk_prob : ℚ) : ℚ :=
  let available : ℕ :=
    (RISK_FEATURES.map (·.name)).countP (fun n => (alookup n features).isSome)
  let completeness : ℚ := (available : ℚ) / (RISK_FEATURES.length : ℚ)
  let certainty : ℚ := |risk_prob - 0.5| * 2
  0.6 * completeness + 0.4 * certainty

/-- `_calculate_category_scores`: the per-category list of weighted
contributions of the features that are present, in catalog order. -/
def category_contributions (features : Features) (cat : FeatureCategory) : List ℚ :=
  RISK_FEATURES.filterMap (fun fd =>
    if fd.category = cat then
      (alookup fd.name features).map (fun value =>
        normalize_risk_contribution fd value * fd.importance_weight)
    else none)

/-- `_calculate_category_scores`: risk score per category; an empty list of
present features yields `0.0`, otherwise the sum is divided by the total
importance weight of all catalog features of the category. -/
def calculate_category_scores (features : Features) : List (String × ℚ) :=
  FeatureCategory.all.map (fun cat =>
    let values := category_contributions features cat
    let score : ℚ :=
      if values = [] then 0
      else values.sum /
        ((RISK_FEATURES.filter (fun f => f.category.value = cat.value)).map
          (·.importance_weight)).sum
    (cat.value, score))

/-- `recommendation_template.format(value=...)`: the `\x7bvalue\x7d` hole is
filled with the integer rendering when the value is integral, else the plain
rendering. -/
def formatTemplate (t : String) (value : ℚ) : String :=
  let v : String := if value.den = 1 then toString value.num else toString value
  (t.replace "\x7bvalue\x7d" v)

/-- `_identify_risk_factors`, body of the loop: the factor built from one
feature definition, or `none` when the feature is absent or its contribution
does not exceed 0.3. -/
def mkRiskFactor (features : Features) (fd : FeatureDefinition) : Option RiskFactor :=
  match alookup fd.name features with
  | none => none
  | some value =>
    let contribution := normalize_risk_contribution fd value
    if contribution > 0.3 then
      some {
        feature := fd.name,
        category := fd.category,
        description := fd.description,
        current_value := .num value,
        contribution := contribution * fd.importance_weight,
        severity :=
          if contribution > 0.7 then "high"
          else if contribution > 0.5 then "medium" else "low",
        threshold :=
          if fd.risk_direction = "high_is_risk" then fd.threshold_high
          else fd.threshold_low,
        recommendation := fd.recommendation_template.map (formatTemplate · value) }
    else none

/-- Descending order on weighted contribution, the sort key of the source
(`sort(key=..., reverse=True)`). -/
def riskFactorGE (a b : RiskFactor) : Prop := b.contribution ≤ a.contribution

instance : DecidableRel riskFactorGE := fun a b =>
  inferInstanceAs (Decidable (b.contribution ≤ a.contribution))

/-- `_identify_risk_factors`: factors with contribution above 0.3, sorted by
weighted contribution descending (stable sort, as in Python). -/
def identify_risk_factors (features : Features) : List RiskFactor :=
  (RISK_FEATURES.filterMap (mkRiskFactor features)).insertionSort riskFactorGE

/-- `_identify_protective_factors`, body of the loop. -/
def mkProtectiveFactor (features : Features) (fd : FeatureDefinition) :
    Option ProtectiveFactor :=
  match alookup fd.name features with
  | none => none
  | some value =>
    let contribution := normalize_risk_contribution fd value
    if contribution < 0.3 then
      some {
        feature := fd.name,
        category := fd.category,
        description := fd.description,
        current_value := .num value,
        contribution := (1 - contribution) * fd.importance_weight }
    else none

/-- Descending order on protective contribution. -/
def protectiveFactorGE (a b : ProtectiveFactor) : Prop := b.contribution ≤ a.contribution

instance : DecidableRel protectiveFactorGE := fun a b =>
  inferInstanceAs (Decidable (b.contribution ≤ a.contribution))

/-- `_identify_protective_factors`: factors with contribution below 0.3,
scored `(1 - contribution) * importance_weight`, sorted descending. -/
def identify_protective_factors (features : Features) : List ProtectiveFactor :=
  (RISK_FEATURES.filterMap (mkProtectiveFactor features)).insertionSort protectiveFactorGE

/-- `_calculate_trend`: trend label and delta versus the previous score. -/
def calculate_trend (current_score : ℚ) (previous_score : Option ℚ) :
    RiskTrend × Option ℚ :=
  match previous_score with
  | none => (.stable, none)
  | some prev =>
    let change := current_score - prev
    if change > 0.05 then (.increasing, some change)
    else if change < -0.05 then (.decreasing, some change)
    else (.stable, some change)

/-- `_prepare_features`: feature vector in catalog order, absent features
filled with `0.0`. -/
def prepare_features (features : Features) : List ℚ :=
  RISK_FEATURES.map (fun fd => (alookup fd.name features).getD 0)

/-- The cache-miss body of `predict_risk`: assemble the `RiskPrediction` from
the scorer's probability, with top 5 risk factors and top 3 protective
factors retained.  `score` stands for the scaler + classifier pipeline,
`now` for `datetime.utcnow().isoformat()`, `previous` for the value read
from the history store. -/
def computePrediction (score : List ℚ → ℚ) (student_id : String) (now : String)
    (previous : Option ℚ) (features : Features) : RiskPrediction :=
  let risk_prob := score (prepare_features features)
  let tc := calculate_trend risk_prob previous
  { student_id := student_id,
    timestamp := now,
    risk_score := risk_prob,
    risk_level := get_risk_level risk_prob,
    confidence := calculate_confidence features risk_prob,
    category_scores := calculate_category_scores features,
    top_risk_factors := (identify_risk_factors features).take 5,
    protective_factors := (identify_protective_factors features).take 3,
    risk_trend := tc.1,
    previous_risk_score := previous,
    score_change := tc.2,
    model_version := "1.0.0" }

end StudentRiskModel

/-- `obj[k]` / `obj.get(k)` on a JSON value. -/
def Json.getField (j : Json) (k : String) : Option Json :=
  match j with
  | .obj kvs => alookup k kvs
  | _ => none

/-- Read a JSON value as a float; anything else fails. -/
def Json.asNum : Json → Option ℚ
  | .num q => some q
  | _ => none

/-- Read a JSON value as a string; anything else fails. -/
def Json.asStr : Json → Option String
  | .str s => some s
  | _ => none

/-- Read a JSON value as a list; anything else fails. -/
def Json.asArr : Json → Option (List Json)
  | .arr xs => some xs
  | _ => none

/-- Serialize an `Optional[float]` (Python `None` becomes JSON `null`). -/
def Json.ofOptNum : Option ℚ → Json
  | none => .null
  | some q => .num q

/-- Read back an `Optional[float]`. -/
def Json.asOptNum : Json → Option (Option ℚ)
  | .null => some none
  | .num q => some (some q)
  | _ => none

/-- Serialize an `Optional[str]`. -/
def Json.ofOptStr : Option String → Json
  | none => .null
  | some s => .str s

/-- Read back an `Optional[str]`. -/
def Json.asOptStr : Json → Option (Option String)
  | .null => some none
  | .str s => some (some s)
  | _ => none

namespace StudentRiskModel

/-- Serialize a `float | str` current value. -/
def FVal.toJson : FVal → Json
  | .num q => .num q
  | .str s => .str s

/-- Read back a `float | str` current value. -/
def FVal.ofJson : Json → Option FVal
  | .num q => some (.num q)
  | .str s => some (.str s)
  | _ => none

/-- The `top_risk_factors` entry of `_serialize_prediction`. -/
def serializeRiskFactor (f : RiskFactor) : Json :=
  .obj [
    ("feature", .str f.feature),
    ("category", .str f.category.value),
    ("description", .str f.description),
    ("current_value", f.current_value.toJson),
    ("contribution", .num f.contribution),
    ("severity", .str f.severity),
    ("threshold", Json.ofOptNum f.threshold),
    ("recommendation", Json.ofOptStr f.recommendation)]

/-- The `RiskFactor(...)` construction of `_deserialize_prediction`; a field
of the wrong shape raises in Python and yields `none` here. -/
def parseRiskFactor (j : Json) : Option RiskFactor := do
  let feature ← (← j.getField "feature").asStr
  let category ← FeatureCategory.ofValue (← (← j.getField "category").asStr)
  let description ← (← j.getField "description").asStr
  let current_value ← FVal.ofJson (← j.getField "current_value")
  let contribution ← (← j.getField "contribution").asNum
  let severity ← (← j.getField "severity").asStr
  let threshold ← Json.asOptNum ((j.getField "threshold").getD .null)
  let recommendation ← Json.asOptStr ((j.getField "recommendation").getD .null)
  pure { feature := feature, category := category, description := description,
         current_value := current_value, contribution := contribution,
         severity := severity, threshold := threshold,
         recommendation := recommendation }

/-- The `protective_factors` entry of `_serialize_prediction`. -/
def serializeProtectiveFactor (f : ProtectiveFactor) : Json :=
  .obj [
    ("feature", .str f.feature),
    ("category", .str f.category.value),
    ("description", .str f.description),
    ("current_value", f.current_value.toJson),
    ("contribution", .num f.contribution)]

/-- The `ProtectiveFactor(...)` construction of `_deserialize_prediction`. -/
def parseProtectiveFactor (j : Json) : Option ProtectiveFactor := do
  let feature ← (← j.getField "feature").asStr
  let category ← FeatureCategory.ofValue (← (← j.getField "category").asStr)
  let description ← (← j.getField "description").asStr
  let current_value ← FVal.ofJson (← j.getField "current_value")
  let contribution ← (← j.getField "contribution").asNum
  pure { feature := feature, category := category, description := description,
         current_value := current_value, contribution := contribution }

/-- `_serialize_prediction`: prediction to JSON, enum fields by their string
values, nested factor lists and the category-score map included. -/
def serialize_prediction (p : RiskPrediction) : Json :=
  .obj [
    ("student_id", .str p.student_id),
    ("timestamp", .str p.timestamp),
    ("risk_score", .num p.risk_score),
    ("risk_level", .str p.risk_level.value),
    ("confidence", .num p.confidence),
    ("category_scores", .obj (p.category_scores.map (fun kv => (kv.1, .num kv.2)))),
    ("top_risk_factors", .arr (p.top_risk_factors.map serializeRiskFactor)),
    ("protective_factors", .arr (p.protective_factors.map serializeProtectiveFactor)),
    ("risk_trend", .str p.risk_trend.value),
    ("previous_risk_score", Json.ofOptNum p.previous_risk_score),
    ("score_change", Json.ofOptNum p.score_change),
    ("model_version", .str p.model_version)]

/-- The category-score map read back from JSON. -/
def parseCategoryScores (j : Json) : Option (List (String × ℚ)) :=
  match j with
  | .obj kvs => kvs.mapM (fun kv => (kv.2.asNum).map (kv.1, ·))
  | _ => none

/-- The scalar header fields read back by `_deserialize_prediction`:
student id, timestamp, risk score, risk level and confidence. -/
def parsePredictionHeader (j : Json) :
    Option (String × String × ℚ × RiskLevel × ℚ) := do
  let student_id : String ← (← j.getField "student_id").asStr
  let timestamp : String ← (← j.getField "timestamp").asStr
  let risk_score : ℚ ← (← j.getField "risk_score").asNum
  let risk_level : RiskLevel ← RiskLevel.ofValue (← (← j.getField "risk_level").asStr)
  let confidence : ℚ ← (← j.getField "confidence").asNum
  pure (student_id, timestamp, risk_score, risk_level, confidence)

/-- The trailing scalar fields read back by `_deserialize_prediction`:
trend, the two optional scores and the model version. -/
def parsePredictionTail (j : Json) :
    Option (RiskTrend × Option ℚ × Option ℚ × String) := do
  let risk_trend : RiskTrend ← RiskTrend.ofValue (← (← j.getField "risk_trend").asStr)
  let previous_risk_score : Option ℚ ←
    Json.asOptNum ((j.getField "previous_risk_score").getD .null)
  let score_change : Option ℚ ← Json.asOptNum ((j.getField "score_change").getD .null)
  let model_version : String ← (← j.getField "model_version").asStr
  pure (risk_trend, previous_risk_score, score_change, model_version)

/-- The nested collections read back by `_deserialize_prediction`: the
category-score map and the two factor lists. -/
def parsePredictionLists (j : Json) :
    Option (List (String × ℚ) × List RiskFactor × List ProtectiveFactor) := do
  let category_scores : List (String × ℚ) ←
    parseCategoryScores (← j.getField "category_scores")
  let top_risk_factors : List RiskFactor ←
    (← (← j.getField "top_risk_factors").asArr).mapM parseRiskFactor
  let protective_factors : List ProtectiveFactor ←
    (← (← j.getField "protective_factors").asArr).mapM parseProtectiveFactor
  pure (category_scores, top_risk_factors, protective_factors)

/-- `_deserialize_prediction`: JSON back to a `RiskPrediction`.  In the
source a malformed value raises (`json.loads`, key/enum errors); here that
is `none`.  No caller of this function catches the failure. -/
def deserialize_prediction (j : Json) : Option RiskPrediction := do
  let (student_id, timestamp, risk_score, risk_level, confidence) ←
    parsePredictionHeader j
  let (category_scores, top_risk_factors, protective_factors) ←
    parsePredictionLists j
  let (risk_trend, previous_risk_score, score_change, model_version) ←
    parsePredictionTail j
  pure { student_id := student_id, timestamp := timestamp,
         risk_score := risk_score, risk_level := risk_level,
         confidence := confidence, category_scores := category_scores,
         top_risk_factors := top_risk_factors,
         protective_factors := protective_factors, risk_trend := risk_trend,
         previous_risk_score := previous_risk_score,
         score_change := score_change, model_version := model_version }

/-- `predict_risk`, cache path included: on a cache hit the stored value is
deserialized and returned; the source wraps the deserialization in no
`try`/`except`, so a malformed cached value propagates the exception
(`.error`) instead of falling back to recomputation.  On a cache miss the
prediction is computed. -/
def predict_risk (score : List ℚ → ℚ) (student_id : String) (now : String)
    (previous : Option ℚ) (cached : Option Json) (features : Features) :
    Except Unit RiskPrediction :=
  match cached with
  | some c =>
    match deserialize_prediction c with
    | some p => .ok p
    | none => .error ()
  | none => .ok (computePrediction score student_id now previous features)

end StudentRiskModel

namespace BiasDetectionService

/-- `FairnessMetric` enum of the source. -/
inductive FairnessMetric
  | statistical_parity
  | equalized_odds
  | disparate_impact
  | calibration
  | false_positive_rate
  | false_negative_rate
deriving DecidableEq

/-- The `.value` string of a `FairnessMetric` member. -/
def FairnessMetric.value : FairnessMetric → String
  | .statistical_parity => "statistical_parity"
  | .equalized_odds => "equalized_odds"
  | .disparate_impact => "disparate_impact"
  | .calibration => "calibration"
  | .false_positive_rate => "false_positive_rate"
  | .false_negative_rate => "false_negative_rate"

/-- `BiasSeverity` enum of the source. -/
inductive BiasSeverity
  | none
  | low
  | moderate
  | high
  | critical
deriving DecidableEq

/-- `ProtectedAttribute` enum of the source. -/
inductive ProtectedAttribute
  | race_ethnicity
  | gender
  | socioeconomic_status
  | disability_status
  | english_learner
  | grade_level
deriving DecidableEq

/-- The `.value` string of a `ProtectedAttribute` member. -/
def ProtectedAttribute.value : ProtectedAttribute → String
  | .race_ethnicity => "race_ethnicity"
  | .gender => "gender"
  | .socioeconomic_status => "socioeconomic_status"
  | .disability_status => "disability_status"
  | .english_learner => "english_learner"
  | .grade_level => "grade_level"

/-- Iteration order of `ProtectedAttribute` members (`for attr in
ProtectedAttribute`). -/
def ProtectedAttribute.all : List ProtectedAttribute :=
  [.race_ethnicity, .gender, .socioeconomic_status, .disability_status,
   .english_learner, .grade_level]

/-- `GroupStatistics` dataclass of the source. -/
structure GroupStatistics where
  group_name : String
  sample_size : ℕ
  mean_prediction : ℚ
  std_prediction : ℚ
  positive_rate : ℚ
  true_positive_rate : Option ℚ := Option.none
  false_positive_rate : Option ℚ := Option.none
  false_negative_rate : Option ℚ := Option.none
  calibration_error : Option ℚ := Option.none
deriving DecidableEq

/-- `FairnessResult` dataclass of the source.  The source field `attribute`
is a Lean keyword and is called `attr` here. -/
structure FairnessResult where
  metric : FairnessMetric
  attr : ProtectedAttribute
  reference_group : String
  comparison_group : String
  reference_value : ℚ
  comparison_value : ℚ
  difference : ℚ
  ratio : Option ℚ
  p_value : Option ℚ
  is_significant : Bool
  severity : BiasSeverity
  explanation : String
deriving DecidableEq

/-- One row of `BIAS_THRESHOLDS`. -/
structure SeverityThresholds where
  low : ℚ
  moderate : ℚ
  high : ℚ
  critical : ℚ
deriving DecidableEq

/-- The `BIAS_THRESHOLDS` table of the source; `CALIBRATION` has no entry
(so `thresholds.get(metric, {})` yields the empty dict for it). -/
def BIAS_THRESHOLDS : FairnessMetric → Option SeverityThresholds
  | .statistical_parity => some ⟨0.05, 0.10, 0.15, 0.20⟩
  | .disparate_impact => some ⟨0.90, 0.85, 0.80, 0.70⟩
  | .equalized_odds => some ⟨0.05, 0.10, 0.15, 0.20⟩
  | .false_positive_rate => some ⟨0.05, 0.10, 0.15, 0.20⟩
  | .false_negative_rate => some ⟨0.05, 0.10, 0.15, 0.20⟩
  | .calibration => Option.none

/-- `_get_severity`: severity from a difference and the metric's threshold
table; a missing table entry makes every lookup default to `float("inf")`,
so the result is `NONE`. -/
def get_severity (metric : FairnessMetric) (difference : ℚ) : BiasSeverity :=
  match BIAS_THRESHOLDS metric with
  | Option.none => .none
  | some t =>
    if difference ≥ t.critical then .critical
    else if difference ≥ t.high then .high
    else if difference ≥ t.moderate then .moderate
    else if difference ≥ t.low then .low
    else .none

/-- `_get_severity_di`: severity for a disparate-impact ratio (lower is
worse), read from `BIAS_THRESHOLDS[FairnessMetric.DISPARATE_IMPACT]`. -/
def get_severity_di (ratio : ℚ) : BiasSeverity :=
  match BIAS_THRESHOLDS .disparate_impact with
  | Option.none => .none
  | some t =>
    if ratio ≤ t.critical then .critical
    else if ratio ≤ t.high then .high
    else if ratio ≤ t.moderate then .moderate
    else if ratio ≤ t.low then .low
    else .none

/-- `_generate_explanation`: human-readable explanation (Python's fixed
decimal formatting is abstracted as `toString`). -/
def generate_explanation (metric : FairnessMetric) (a : ProtectedAttribute)
    (reference_group comparison_group : String)
    (reference_value comparison_value : ℚ) (severity : BiasSeverity) : String :=
  let attr_name := a.value.replace "_" " "
  let sevStr : String :=
    match severity with
    | .none => "none" | .low => "low" | .moderate => "moderate"
    | .high => "high" | .critical => "critical"
  match metric with
  | .statistical_parity =>
    let diff_pct := |reference_value - comparison_value| * 100
    let higher_group :=
      if reference_value > comparison_value then reference_group else comparison_group
    "High-risk prediction rates differ by " ++ toString diff_pct ++ "% between "
      ++ attr_name ++ " groups. The " ++ higher_group
      ++ " group has a higher rate of high-risk classifications. Severity: "
      ++ sevStr ++ "."
  | .disparate_impact =>
    if reference_value > 0 then
      "Disparate impact ratio is " ++ toString (comparison_value / reference_value)
        ++ " for " ++ attr_name ++ ". A ratio below 0.80 may indicate bias. Severity: "
        ++ sevStr ++ "."
    else "Cannot calculate disparate impact - reference group rate is zero."
  | .false_positive_rate =>
    let diff_pct := |reference_value - comparison_value| * 100
    "False positive rates differ by " ++ toString diff_pct ++ "% between "
      ++ attr_name
      ++ " groups. This means one group may be incorrectly flagged as high-risk more often. Severity: "
      ++ sevStr ++ "."
  | .false_negative_rate =>
    let diff_pct := |reference_value - comparison_value| * 100
    let higher_group :=
      if reference_value > comparison_value then reference_group else comparison_group
    "False negative rates differ by " ++ toString diff_pct ++ "% between "
      ++ attr_name ++ " groups. The " ++ higher_group
      ++ " group may have at-risk students missed more often. Severity: "
      ++ sevStr ++ "."
  | _ =>
    "Fairness metric " ++ metric.value ++ " analyzed for " ++ attr_name
      ++ ". Severity: " ++ sevStr ++ "."

/-- One element of the `predictions` list fed to `analyze_bias`:
`{"student_id": str, "risk_score": float, "demographics": dict}`. -/
structure BiasPred where
  student_id : String
  risk_score : ℚ
  demographics : List (String × String)
deriving DecidableEq

/-- Append a prediction to its group, preserving the insertion order of the
`defaultdict(list)` of the source. -/
def addToGroup (groups : List (String × List BiasPred)) (key : String)
    (p : BiasPred) : List (String × List BiasPred) :=
  match groups with
  | [] => [(key, [p])]
  | (k, ps) :: rest =>
    if k = key then (k, ps ++ [p]) :: rest else (k, ps) :: addToGroup rest key p

/-- `_group_by_demographics`: partition the predictions by each protected
attribute independently; a prediction with no value for an attribute is
skipped for that attribute. -/
def group_by_demographics (preds : List BiasPred) :
    List (String × List (String × List BiasPred)) :=
  ProtectedAttribute.all.map (fun a =>
    (a.value,
     preds.foldl (fun groups p =>
       match alookup a.value p.demographics with
       | some v => addToGroup groups v p
       | Option.none => groups) []))

/-- Last-match lookup, modelling the dict comprehension
`{o["student_id"]: o["actual_outcome"] for o in outcomes}` where a later
entry overwrites an earlier one. -/
def olookup (k : String) (m : List (String × Bool)) : Option Bool :=
  alookup k m.reverse

/-- The body of `_calculate_group_statistics` for one group.  `np.std` is
the population standard deviation, `sqrtFn` standing for the square root. -/
def groupStats (sqrtFn : ℚ → ℚ) (outcome_map : List (String × Bool))
    (group_name : String) (predictions : List BiasPred) : GroupStatistics :=
  let scores := predictions.map (·.risk_score)
  let n : ℚ := (scores.length : ℚ)
  let mean_pred : ℚ := scores.sum / n
  let std_pred : ℚ := sqrtFn ((scores.map (fun s => (s - mean_pred) ^ 2)).sum / n)
  let positive_rate : ℚ := ((scores.countP (fun s => decide (s ≥ 0.5))) : ℚ) / n
  let matched : List (ℚ × Bool) :=
    predictions.filterMap (fun p =>
      (olookup p.student_id outcome_map).map (fun a => (p.risk_score, a)))
  let outcomeStats : Option ℚ × Option ℚ × Option ℚ × Option ℚ :=
    if outcome_map = [] ∨ matched = [] then
      (Option.none, Option.none, Option.none, Option.none)
    else
      let actual_positives : ℕ := matched.countP (·.2)
      let actual_negatives : ℕ := matched.countP (fun m => !m.2)
      let tpr : Option ℚ :=
        if actual_positives ≠ 0 then
          some (((matched.countP (fun m => decide (m.1 ≥ 0.5) && m.2)) : ℚ)
            / (actual_positives : ℚ))
        else Option.none
      let fpr : Option ℚ :=
        if actual_negatives ≠ 0 then
          some (((matched.countP (fun m => decide (m.1 ≥ 0.5) && !m.2)) : ℚ)
            / (actual_negatives : ℚ))
        else Option.none
      let fnr : Option ℚ :=
        if actual_positives ≠ 0 then
          some (((matched.countP (fun m => decide (m.1 < 0.5) && m.2)) : ℚ)
            / (actual_positives : ℚ))
        else Option.none
      let cal_error : Option ℚ :=
        if matched.length ≥ 10 then
          some |(matched.map (·.1)).sum / (matched.length : ℚ)
            - ((matched.countP (·.2)) : ℚ) / (matched.length : ℚ)|
        else Option.none
      (tpr, fpr, fnr, cal_error)
  { group_name := group_name,
    sample_size := predictions.length,
    mean_prediction := mean_pred,
    std_prediction := std_pred,
    positive_rate := positive_rate,
    true_positive_rate := outcomeStats.1,
    false_positive_rate := outcomeStats.2.1,
    false_negative_rate := outcomeStats.2.2.1,
    calibration_error := outcomeStats.2.2.2 }

/-- `_calculate_group_statistics`: statistics for each demographic group, in
dict order. -/
def calculate_group_statistics (sqrtFn : ℚ → ℚ)
    (groups : List (String × List BiasPred)) (outcome_map : List (String × Bool)) :
    List GroupStatistics :=
  groups.map (fun g => groupStats sqrtFn outcome_map g.1 g.2)

/-- `_evaluate_statistical_parity`: parity difference with a two-proportion
z-test (`sqrtFn` for `math.sqrt`, `normCdf` for `scipy.stats.norm.cdf`). -/
def evaluate_statistical_parity (sqrtFn normCdf : ℚ → ℚ)
    (a : ProtectedAttribute) (reference comparison : GroupStatistics) :
    FairnessResult :=
  let diff : ℚ := |reference.positive_rate - comparison.positive_rate|
  let n1 : ℚ := (reference.sample_size : ℚ)
  let n2 : ℚ := (comparison.sample_size : ℚ)
  let p1 := reference.positive_rate
  let p2 := comparison.positive_rate
  let p_pool : ℚ := (p1 * n1 + p2 * n2) / (n1 + n2)
  let se : ℚ := sqrtFn (p_pool * (1 - p_pool) * (1 / n1 + 1 / n2))
  let z_stat : ℚ := if se > 0 then (p1 - p2) / se else 0
  let p_value : ℚ := 2 * (1 - normCdf |z_stat|)
  let severity := get_severity .statistical_parity diff
  let is_significant : Bool := decide (p_value < 0.05) && decide (severity ≠ .none)
  { metric := .statistical_parity,
    attr := a,
    reference_group := reference.group_name,
    comparison_group := comparison.group_name,
    reference_value := reference.positive_rate,
    comparison_value := comparison.positive_rate,
    difference := diff,
    ratio :=
      if reference.positive_rate > 0 then
        some (comparison.positive_rate / reference.positive_rate)
      else Option.none,
    p_value := some p_value,
    is_significant := is_significant,
    severity := severity,
    explanation := generate_explanation .statistical_parity a
      reference.group_name comparison.group_name
      reference.positive_rate comparison.positive_rate severity }

/-- `_evaluate_disparate_impact`: the 80% rule.  The ratio is `None` when
the reference rate is not positive; the normalized ratio
`min(ratio, 1/ratio)` falls back to `0` when the ratio is `None` or not
positive. -/
def evaluate_disparate_impact (a : ProtectedAttribute)
    (reference comparison : GroupStatistics) : FairnessResult :=
  let ratio : Option ℚ :=
    if reference.positive_rate > 0 then
      some (comparison.positive_rate / reference.positive_rate)
    else Option.none
  let normalized_ratio : ℚ :=
    match ratio with
    | some r => if r > 0 then min r (1 / r) else 0
    | Option.none => 0
  let severity := get_severity_di normalized_ratio
  { metric := .disparate_impact,
    attr := a,
    reference_group := reference.group_name,
    comparison_group := comparison.group_name,
    reference_value := reference.positive_rate,
    comparison_value := comparison.positive_rate,
    difference := |reference.positive_rate - comparison.positive_rate|,
    ratio := ratio,
    p_value := Option.none,
    is_significant := decide (severity ≠ .none),
    severity := severity,
    explanation := generate_explanation .disparate_impact a
      reference.group_name comparison.group_name
      reference.positive_rate comparison.positive_rate severity }

/-- `_evaluate_equalized_odds`: FPR-gap and FNR-gap results, each present
only when both groups carry the corresponding rate. -/
def evaluate_equalized_odds (a : ProtectedAttribute)
    (reference comparison : GroupStatistics) : List FairnessResult :=
  let fprPart : List FairnessResult :=
    match reference.false_positive_rate, comparison.false_positive_rate with
    | some rf, some cf =>
      let fpr_diff := |rf - cf|
      let severity := get_severity .false_positive_rate fpr_diff
      [{ metric := .false_positive_rate,
         attr := a,
         reference_group := reference.group_name,
         comparison_group := comparison.group_name,
         reference_value := rf,
         comparison_value := cf,
         difference := fpr_diff,
         ratio := Option.none,
         p_value := Option.none,
         is_significant := decide (severity ≠ .none),
         severity := severity,
         explanation := generate_explanation .false_positive_rate a
           reference.group_name comparison.group_name rf cf severity }]
    | _, _ => []
  let fnrPart : List FairnessResult :=
    match reference.false_negative_rate, comparison.false_negative_rate with
    | some rf, some cf =>
      let fnr_diff := |rf - cf|
      let severity := get_severity .false_negative_rate fnr_diff
      [{ metric := .false_negative_rate,
         attr := a,
         reference_group := reference.group_name,
         comparison_group := comparison.group_name,
         reference_value := rf,
         comparison_value := cf,
         difference := fnr_diff,
         ratio := Option.none,
         p_value := Option.none,
         is_significant := decide (severity ≠ .none),
         severity := severity,
         explanation := generate_explanation .false_negative_rate a
           reference.group_name comparison.group_name rf cf severity }]
    | _, _ => []
  fprPart ++ fnrPart

/-- `_determine_overall_severity`: the highest severity among significant
results, in the fixed order critical, high, moderate, low. -/
def determine_overall_severity (results : List FairnessResult) : BiasSeverity :=
  if results = [] then .none
  else
    let severities := (results.filter (·.is_significant)).map (·.severity)
    if severities = [] then .none
    else if .critical ∈ severities then .critical
    else if .high ∈ severities then .high
    else if .moderate ∈ severities then .moderate
    else if .low ∈ severities then .low
    else .none

/-- `_generate_recommendations`: deterministic recommendation texts from the
significant results.  The source iterates a Python `set` of attributes whose
order is unspecified; here the fixed enum order is used. -/
def generate_recommendations (results : List FairnessResult) : List String :=
  let significant := results.filter (·.is_significant)
  if significant = [] then
    ["No significant bias detected. Continue monitoring with regular analysis."]
  else
    let urgent : List String :=
      if significant.any (fun r =>
          r.severity = BiasSeverity.critical ∨ r.severity = BiasSeverity.high) then
        ["URGENT: High-severity bias detected. Convene review committee immediately."]
      else []
    let affected := ProtectedAttribute.all.filter (fun a =>
      significant.any (fun r => r.attr = a))
    let perAttr : List String := affected.flatMap (fun a =>
      let attr_results := significant.filter (fun r => r.attr = a)
      let attr_name := a.value.replace "_" " "
      (if attr_results.any (fun r => r.metric = FairnessMetric.statistical_parity) then
        ["Review prediction thresholds for " ++ attr_name
          ++ " groups to ensure equitable classification rates."]
      else []) ++
      (if attr_results.any (fun r => r.metric = FairnessMetric.false_negative_rate) then
        ["Some " ++ attr_name ++ " groups may have at-risk students being missed. "
          ++ "Consider adjusting sensitivity for these groups."]
      else []) ++
      (if attr_results.any (fun r => r.metric = FairnessMetric.false_positive_rate) then
        ["Some " ++ attr_name ++ " groups may be over-identified as high-risk. "
          ++ "Review feature engineering for potential proxy discrimination."]
      else []))
    let audit : List String :=
      if significant.length > 3 then
        ["Consider conducting a thorough feature audit to identify potentially biased input features."]
      else []
    urgent ++ perAttr ++ audit ++
      ["Ensure all affected students receive equitable support regardless of model predictions."]

/-- `_calculate_demographic_coverage`: per attribute, how many predictions
carry a value for it. -/
def calculate_demographic_coverage (preds : List BiasPred) : List (String × ℕ) :=
  ProtectedAttribute.all.map (fun a =>
    (a.value, preds.countP (fun p => (alookup a.value p.demographics).isSome)))

/-- `_calculate_confidence` of `BiasDetectionService`: `0.3` for fewer than
100 predictions, otherwise a blend of sample-size factor and demographic
coverage (valid groups have at least `MINIMUM_GROUP_SIZE = 30` members). -/
def calculate_confidence (preds : List BiasPred)
    (grouped : List (String × List (String × List BiasPred))) : ℚ :=
  let total := preds.length
  if total < 100 then 0.3
  else
    let coverage_scores : List ℚ := ProtectedAttribute.all.map (fun a =>
      let groups := (alookup a.value grouped).getD []
      let valid_groups := (groups.filter (fun g => decide (g.2.length ≥ 30))).length
      min ((valid_groups : ℚ) / 3) 1)
    let avg_coverage := coverage_scores.sum / (coverage_scores.length : ℚ)
    let size_factor : ℚ := min ((total : ℚ) / 1000) 1
    0.4 * size_factor + 0.6 * avg_coverage

/-- Modelled from the spec (§4.8 of the design): the confidence formula
`0.4 × min(total/1000, 1) + 0.6 × mean_over_attributes(min(valid_group_count/3, 1))`
stated without the small-sample branch, for comparison with
`calculate_confidence`. -/
def confidence_formula_spec (preds : List BiasPred)
    (grouped : List (String × List (String × List BiasPred))) : ℚ :=
  let coverage_scores : List ℚ := ProtectedAttribute.all.map (fun a =>
    let groups := (alookup a.value grouped).getD []
    let valid_groups := (groups.filter (fun g => decide (g.2.length ≥ 30))).length
    min ((valid_groups : ℚ) / 3) 1)
  let avg_coverage := coverage_scores.sum / (coverage_scores.length : ℚ)
  0.4 * min ((preds.length : ℚ) / 1000) 1 + 0.6 * avg_coverage

/-- `max(valid_groups.keys(), key=...)`: the first group of maximal size
(Python's `max` keeps the first maximum). -/
def maxByLen (groups : List (String × List BiasPred)) : String :=
  match groups with
  | [] => ""
  | g :: rest =>
    (rest.foldl (fun best cur => if cur.2.length > best.2.length then cur else best) g).1

/-- `next(g for g in group_stats if g.group_name == reference_group)`. -/
def findStats (stats : List GroupStatistics) (name : String) : GroupStatistics :=
  (stats.find? (fun g => g.group_name = name)).getD
    { group_name := "", sample_size := 0, mean_prediction := 0,
      std_prediction := 0, positive_rate := 0 }

/-- The groups of one attribute that reach `MINIMUM_GROUP_SIZE`. -/
def attributeValidGroups (grouped : List (String × List (String × List BiasPred)))
    (a : ProtectedAttribute) : List (String × List BiasPred) :=
  (((alookup a.value grouped).getD []).filter (fun g => decide (g.2.length ≥ 30)))

/-- The `all_group_stats[attribute.value]` entry built by the `analyze_bias`
loop: absent when fewer than two groups are valid. -/
def attributeGroupStats (sqrtFn : ℚ → ℚ) (outcome_map : List (String × Bool))
    (grouped : List (String × List (String × List BiasPred)))
    (a : ProtectedAttribute) : Option (List GroupStatistics) :=
  let valid_groups := attributeValidGroups grouped a
  if valid_groups.length < 2 then Option.none
  else some (calculate_group_statistics sqrtFn valid_groups outcome_map)

/-- The fairness results the `analyze_bias` loop appends for one attribute:
none when fewer than two groups are valid, otherwise each non-reference
group compared with the reference (largest) group. -/
def attributeResults (sqrtFn normCdf : ℚ → ℚ) (outcome_map : List (String × Bool))
    (grouped : List (String × List (String × List BiasPred)))
    (a : ProtectedAttribute) : List FairnessResult :=
  let valid_groups := attributeValidGroups grouped a
  if valid_groups.length < 2 then []
  else
    let group_stats := calculate_group_statistics sqrtFn valid_groups outcome_map
    let reference_group := maxByLen valid_groups
    let reference_stats := findStats group_stats reference_group
    group_stats.flatMap (fun stats =>
      if stats.group_name = reference_group then []
      else
        [evaluate_statistical_parity sqrtFn normCdf a reference_stats stats,
         evaluate_disparate_impact a reference_stats stats] ++
        (if outcome_map = [] then []
         else evaluate_equalized_odds a reference_stats stats))

/-- The pure content of a `BiasReport`.  Identifiers, timestamps, tenant and
model-version strings and the analysis window are I/O metadata supplied by
the caller and are not modelled. -/
structure BiasReport where
  total_predictions : ℕ
  demographic_coverage : List (String × ℕ)
  fairness_results : List FairnessResult
  group_statistics : List (String × List GroupStatistics)
  overall_bias_severity : BiasSeverity
  recommendations : List String
  requires_review : Bool
  confidence_score : ℚ

/-- `analyze_bias`: comprehensive bias analysis of a prediction batch.
`outcomes` is the optional ground-truth list (Python `None` is the empty
list, both falsy). -/
def analyze_bias (sqrtFn normCdf : ℚ → ℚ) (preds : List BiasPred)
    (outcomes : List (String × Bool)) : BiasReport :=
  let grouped := group_by_demographics preds
  let outcome_map := outcomes
  let all_results :=
    ProtectedAttribute.all.flatMap (attributeResults sqrtFn normCdf outcome_map grouped)
  let all_group_stats :=
    ProtectedAttribute.all.filterMap (fun a =>
      (attributeGroupStats sqrtFn outcome_map grouped a).map (fun s => (a.value, s)))
  let overall_severity := determine_overall_severity all_results
  { total_predictions := preds.length,
    demographic_coverage := calculate_demographic_coverage preds,
    fairness_results := all_results,
    group_statistics := all_group_stats,
    overall_bias_severity := overall_severity,
    recommendations := generate_recommendations all_results,
    requires_review :=
      decide (overall_severity = BiasSeverity.high ∨
        overall_severity = BiasSeverity.critical),
    confidence_score := calculate_confidence preds grouped }

end BiasDetectionService

/-! ### Verification helpers -/

namespace StudentRiskModel

/-- Ordinal rank of a risk tier, for stating monotonicity of the ladder. -/
def RiskLevel.rank : RiskLevel → ℕ
  | .low => 0
  | .moderate => 1
  | .high => 2
  | .critical => 3

instance : IsTotal RiskFactor riskFactorGE :=
  ⟨fun a b => le_total b.contribution a.contribution⟩

instance : IsTrans RiskFactor riskFactorGE :=
  ⟨fun _ _ _ h1 h2 => le_trans h2 h1⟩

instance : IsTotal ProtectiveFactor protectiveFactorGE :=
  ⟨fun a b => le_total b.contribution a.contribution⟩

instance : IsTrans ProtectiveFactor protectiveFactorGE :=
  ⟨fun _ _ _ h1 h2 => le_trans h2 h1⟩

end StudentRiskModel

namespace BiasDetectionService

/-- A batch of `n` identical predictions without demographic data, used to
evaluate the report pipeline on concrete inputs. -/
def predsN (n : ℕ) : List BiasPred :=
  List.replicate n { student_id := "s", risk_score := 0, demographics := [] }

end BiasDetectionService

/-! ### Claim theorems -/

open StudentRiskModel BiasDetectionService

/-- C5: for probabilities in `[0,1]` the risk tier of `_get_risk_level` is
non-decreasing, and the ladder is `p ≥ 0.75 ⇒ critical`, `p ≥ 0.5 ⇒ high`,
`p ≥ 0.25 ⇒ moderate`, else `low`, with each lower bound inclusive
(`0.75 ↦ critical`, `0.5 ↦ high`, `0.25 ↦ moderate`). -/
theorem c5_risk_tier_ladder (p q : ℚ) (hp0 : 0 ≤ p) (hp1 : p ≤ 1)
    (hq0 : 0 ≤ q) (hq1 : q ≤ 1) (hpq : p ≤ q) :
    (get_risk_level p).rank ≤ (get_risk_level q).rank
    ∧ (0.75 ≤ p → get_risk_level p = .critical)
    ∧ (0.5 ≤ p → p < 0.75 → get_risk_level p = .high)
    ∧ (0.25 ≤ p → p < 0.5 → get_risk_level p = .moderate)
    ∧ (p < 0.25 → get_risk_level p = .low)
    ∧ get_risk_level (0.75 : ℚ) = .critical
    ∧ get_risk_level (0.5 : ℚ) = .high
    ∧ get_risk_level (0.25 : ℚ) = .moderate := by
  refine ⟨?_, ?_, ?_, ?_, ?_, by norm_num [get_risk_level], by norm_num [get_risk_level],
    by norm_num [get_risk_level]⟩
  · unfold get_risk_level
    split_ifs <;> simp [RiskLevel.rank] <;> linarith
  · intro h
    unfold get_risk_level
    rw [if_pos h]
  · intro h1 h2
    unfold get_risk_level
    rw [if_neg (by linarith), if_pos h1]
  · intro h1 h2
    unfold get_risk_level
    rw [if_neg (by linarith), if_neg (by linarith), if_pos h1]
  · intro h
    unfold get_risk_level
    rw [if_neg (by linarith), if_neg (by linarith), if_neg (by linarith)]

/-- Witness for C5 at `p = 0`, `q = 1`. -/
theorem c5_risk_tier_ladder_witness :
    (get_risk_level 0).rank ≤ (get_risk_level 1).rank
    ∧ get_risk_level (0.75 : ℚ) = .critical := by
  have h := c5_risk_tier_ladder 0 1 (by norm_num) (by norm_num) (by norm_num)
    (by norm_num) (by norm_num)
  exact ⟨h.1, h.2.2.2.2.2.1⟩

/-- Reduction of `_normalize_risk_contribution` once both thresholds are
known to be present. -/
theorem normalize_risk_contribution_eq (fd : FeatureDefinition) (tl th : ℚ)
    (hl : fd.threshold_low = some tl) (hh : fd.threshold_high = some th)
    (value : ℚ) :
    normalize_risk_contribution fd value =
      if fd.risk_direction = "high_is_risk" then
        (if value ≤ tl then 0 else if value ≥ th then 1
         else (value - tl) / (th - tl))
      else
        (if value ≥ th then 0 else if value ≤ tl then 1
         else 1 - (value - tl) / (th - tl)) := by
  unfold normalize_risk_contribution
  rw [hl, hh]

/-- C6: with both thresholds defined and `threshold_low < threshold_high`,
`_normalize_risk_contribution` is non-decreasing in the value for
`high_is_risk` (non-increasing for `low_is_risk`), hits `0` at
`threshold_low` and `1` at `threshold_high` for `high_is_risk` (inverted
for `low_is_risk`), and a feature missing either threshold yields `0.5`. -/
theorem c6_contribution_normalization (fd : FeatureDefinition) (tl th : ℚ)
    (hl : fd.threshold_low = some tl) (hh : fd.threshold_high = some th)
    (hlt : tl < th) (v w : ℚ) (hvw : v ≤ w) :
    (fd.risk_direction = "high_is_risk" →
      normalize_risk_contribution fd v ≤ normalize_risk_contribution fd w
      ∧ normalize_risk_contribution fd tl = 0
      ∧ normalize_risk_contribution fd th = 1)
    ∧ (fd.risk_direction = "low_is_risk" →
      normalize_risk_contribution fd w ≤ normalize_risk_contribution fd v
      ∧ normalize_risk_contribution fd tl = 1
      ∧ normalize_risk_contribution fd th = 0)
    ∧ (∀ (gd : FeatureDefinition) (u : ℚ),
        gd.threshold_low = Option.none ∨ gd.threshold_high = Option.none →
        normalize_risk_contribution gd u = 0.5) := by
  have hth : (0 : ℚ) < th - tl := by linarith
  refine ⟨?_, ?_, ?_⟩
  · intro hdir
    rw [normalize_risk_contribution_eq fd tl th hl hh v,
        normalize_risk_contribution_eq fd tl th hl hh w,
        normalize_risk_contribution_eq fd tl th hl hh tl,
        normalize_risk_contribution_eq fd tl th hl hh th, hdir]
    rw [if_pos rfl, if_pos rfl, if_pos rfl, if_pos rfl]
    refine ⟨?_, ?_, ?_⟩
    · split_ifs <;>
        first
          | (exact div_nonneg (by linarith) (le_of_lt hth))
          | (rw [div_le_one hth]; linarith)
          | (rw [div_le_div_right hth]; linarith)
          | linarith
    · rw [if_pos le_rfl]
    · rw [if_neg (by linarith), if_pos le_rfl]
  · intro hdir
    have hne : ¬(fd.risk_direction = "high_is_risk") := by
      rw [hdir]; decide
    rw [normalize_risk_contribution_eq fd tl th hl hh v,
        normalize_risk_contribution_eq fd tl th hl hh w,
        normalize_risk_contribution_eq fd tl th hl hh tl,
        normalize_risk_contribution_eq fd tl th hl hh th]
    rw [if_neg hne, if_neg hne, if_neg hne, if_neg hne]
    refine ⟨?_, ?_, ?_⟩
    · split_ifs <;>
        first
          | (have h1 : (v - tl) / (th - tl) ≤ 1 := by rw [div_le_one hth]; linarith
             linarith)
          | (have h1 : (0 : ℚ) ≤ (w - tl) / (th - tl) :=
               div_nonneg (by linarith) (le_of_lt hth)
             linarith)
          | (have h1 : (v - tl) / (th - tl) ≤ (w - tl) / (th - tl) := by
               rw [div_le_div_right hth]; linarith
             linarith)
          | linarith
    · rw [if_neg (by linarith), if_pos le_rfl]
    · rw [if_pos le_rfl]
  · intro gd u h
    obtain ⟨n, c, d, rd, tlo, thi, iw, rt⟩ := gd
    unfold normalize_risk_contribution
    rcases h with h | h
    · simp only at h
      subst h
      rfl
    · simp only at h
      subst h
      cases tlo <;> rfl

/-- Witness for C6 on a `high_is_risk` feature with thresholds `0` and `1`,
at values `0 ≤ 1`. -/
theorem c6_contribution_normalization_witness :
    normalize_risk_contribution
      { name := "f", category := .academic, description := "",
        risk_direction := "high_is_risk",
        threshold_low := some 0, threshold_high := some 1 } 0 = 0
    ∧ normalize_risk_contribution
      { name := "f", category := .academic, description := "",
        risk_direction := "high_is_risk",
        threshold_low := some 0, threshold_high := some 1 } 1 = 1 := by
  have h := c6_contribution_normalization
    { name := "f", category := .academic, description := "",
      risk_direction := "high_is_risk",
      threshold_low := some 0, threshold_high := some 1 }
    0 1 rfl rfl (by norm_num) 0 1 (by norm_num)
  exact ⟨(h.1 rfl).2.1, (h.1 rfl).2.2⟩

/-- C1 counterexample: a reference group with `positive_rate = 0` makes
`_evaluate_disparate_impact` report `ratio = None` as claimed, but the
severity is `critical` (the normalized ratio falls back to `0`, which the
inverted table maps to `critical`), not `none`. -/
theorem c1_zero_reference_counterexample :
    (evaluate_disparate_impact ProtectedAttribute.gender
        { group_name := "ref", sample_size := 100, mean_prediction := 0,
          std_prediction := 0, positive_rate := 0 }
        { group_name := "cmp", sample_size := 50, mean_prediction := 0,
          std_prediction := 0, positive_rate := 0.5 }).ratio = Option.none
    ∧ (evaluate_disparate_impact ProtectedAttribute.gender
        { group_name := "ref", sample_size := 100, mean_prediction := 0,
          std_prediction := 0, positive_rate := 0 }
        { group_name := "cmp", sample_size := 50, mean_prediction := 0,
          std_prediction := 0, positive_rate := 0.5 }).severity
        = BiasSeverity.critical
    ∧ BiasSeverity.critical ≠ BiasSeverity.none := by
  refine ⟨?_, ?_, by decide⟩ <;>
    norm_num [evaluate_disparate_impact, get_severity_di, BIAS_THRESHOLDS]

/-- C1 (amended): for every disparate-impact evaluation in which the
reference group's `positive_rate` is `0`, the result's `ratio` is `None`
and no division is performed, but the severity falls back to `critical`
(normalized ratio `0`), not to `none`. -/
theorem c1_zero_reference_rate (a : ProtectedAttribute)
    (ref cmp : GroupStatistics) (h : ref.positive_rate = 0) :
    (evaluate_disparate_impact a ref cmp).ratio = Option.none
    ∧ (evaluate_disparate_impact a ref cmp).severity = BiasSeverity.critical := by
  simp only [evaluate_disparate_impact, h]
  norm_num [get_severity_di, BIAS_THRESHOLDS]

/-- Witness for C1 (amended) on a concrete pair of groups. -/
theorem c1_zero_reference_rate_witness :
    (evaluate_disparate_impact ProtectedAttribute.race_ethnicity
        { group_name := "a", sample_size := 40, mean_prediction := 0,
          std_prediction := 0, positive_rate := 0 }
        { group_name := "b", sample_size := 35, mean_prediction := 0,
          std_prediction := 0, positive_rate := 0.2 }).ratio = Option.none
    ∧ (evaluate_disparate_impact ProtectedAttribute.race_ethnicity
        { group_name := "a", sample_size := 40, mean_prediction := 0,
          std_prediction := 0, positive_rate := 0 }
        { group_name := "b", sample_size := 35, mean_prediction := 0,
          std_prediction := 0, positive_rate := 0.2 }).severity
        = BiasSeverity.critical :=
  c1_zero_reference_rate ProtectedAttribute.race_ethnicity _ _ rfl

/-- C7: with a positive reference rate, the severity of
`_evaluate_disparate_impact` is `_get_severity_di` of the normalized ratio
`min(ratio, 1/ratio)`; the table is inverted (`≤0.90 low`, `≤0.85
moderate`, `≤0.80 high`, `≤0.70 critical`, otherwise `none`); and
reference rate `0.50` with comparison rate `0.35` gives ratio `0.70` and
severity `critical` (the `0.70` bound is inclusive). -/
theorem c7_disparate_impact_severity (a : ProtectedAttribute)
    (ref cmp : GroupStatistics) (href : 0 < ref.positive_rate)
    (hcmp : 0 ≤ cmp.positive_rate) :
    ((evaluate_disparate_impact a ref cmp).severity
      = get_severity_di (min (cmp.positive_rate / ref.positive_rate)
          (1 / (cmp.positive_rate / ref.positive_rate))))
    ∧ (∀ r : ℚ,
        (r ≤ 0.70 → get_severity_di r = .critical)
        ∧ (0.70 < r → r ≤ 0.80 → get_severity_di r = .high)
        ∧ (0.80 < r → r ≤ 0.85 → get_severity_di r = .moderate)
        ∧ (0.85 < r → r ≤ 0.90 → get_severity_di r = .low)
        ∧ (0.90 < r → get_severity_di r = .none))
    ∧ (ref.positive_rate = 0.5 → cmp.positive_rate = 0.35 →
        (evaluate_disparate_impact a ref cmp).ratio = some 0.7
        ∧ (evaluate_disparate_impact a ref cmp).severity
            = BiasSeverity.critical) := by
  refine ⟨?_, ?_, ?_⟩
  · simp only [evaluate_disparate_impact, if_pos href]
    rcases hcmp.lt_or_eq with hpos | heq
    · rw [if_pos (div_pos hpos href)]
    · rw [← heq]
      norm_num
  · intro r
    refine ⟨?_, ?_, ?_, ?_, ?_⟩ <;> intros <;>
      simp only [get_severity_di, BIAS_THRESHOLDS] <;> split_ifs <;>
      first
        | rfl
        | (exfalso; linarith)
  · intro h5 h35
    constructor
    · simp only [evaluate_disparate_impact, h5, h35]
      norm_num
    · simp only [evaluate_disparate_impact, h5, h35]
      norm_num [get_severity_di, BIAS_THRESHOLDS, min_def]

/-- Witness for C7 at reference rate `0.50`, comparison rate `0.35`. -/
theorem c7_disparate_impact_severity_witness :
    (evaluate_disparate_impact ProtectedAttribute.gender
        { group_name := "ref", sample_size := 60, mean_prediction := 0,
          std_prediction := 0, positive_rate := 0.5 }
        { group_name := "cmp", sample_size := 40, mean_prediction := 0,
          std_prediction := 0, positive_rate := 0.35 }).ratio = some 0.7
    ∧ (evaluate_disparate_impact ProtectedAttribute.gender
        { group_name := "ref", sample_size := 60, mean_prediction := 0,
          std_prediction := 0, positive_rate := 0.5 }
        { group_name := "cmp", sample_size := 40, mean_prediction := 0,
          std_prediction := 0, positive_rate := 0.35 }).severity
        = BiasSeverity.critical :=
  (c7_disparate_impact_severity ProtectedAttribute.gender _ _
    (by norm_num) (by norm_num)).2.2 rfl rfl

/-- C3: the source treats a malformed cached value as an error, not as a
cache miss.  `_deserialize_prediction` fails on the malformed value and
`predict_risk` propagates the failure instead of recomputing; only an
absent cache entry leads to recomputation. -/
theorem c3_malformed_cache_propagates :
    deserialize_prediction (Json.str "junk") = Option.none
    ∧ predict_risk (fun _ => 0) "student-1" "2024-01-01T00:00:00"
        Option.none (some (Json.str "junk")) ([] : Features)
        = Except.error ()
    ∧ predict_risk (fun _ => 0) "student-1" "2024-01-01T00:00:00"
        Option.none Option.none ([] : Features)
        = Except.ok (computePrediction (fun _ => 0) "student-1"
            "2024-01-01T00:00:00" Option.none ([] : Features)) :=
  ⟨rfl, rfl, rfl⟩

/-- Grouping a batch of demographic-free predictions leaves every group
list empty. -/
theorem group_by_demographics_predsN (n : ℕ) :
    group_by_demographics (predsN n)
      = ProtectedAttribute.all.map
          (fun a => (a.value, ([] : List (String × List BiasPred)))) := by
  unfold group_by_demographics
  apply List.map_congr_left
  intro a _
  have key : ∀ (m : ℕ) (gs : List (String × List BiasPred)),
      (predsN m).foldl (fun groups p =>
        match alookup a.value p.demographics with
        | some v => addToGroup groups v p
        | Option.none => groups) gs = gs := by
    intro m
    induction m with
    | zero => intro gs; rfl
    | succ k ih =>
      intro gs
      rw [predsN, List.replicate_succ, List.foldl_cons]
      exact ih gs
  rw [key n []]

/-- C9 counterexample: a batch of 50 predictions with no demographic data
gets `confidence_score = 0.3` from `analyze_bias`, while the claimed
formula evaluates to `0.02`; the claimed equality fails and `0.3` even
exceeds the claimed cap. -/
theorem c9_confidence_counterexample :
    (analyze_bias (fun _ => 0) (fun _ => 0) (predsN 50) []).confidence_score = 0.3
    ∧ confidence_formula_spec (predsN 50) (group_by_demographics (predsN 50)) = 0.02
    ∧ ((0.3 : ℚ) ≠ 0.02) ∧ ¬((0.3 : ℚ) ≤ 0.02) := by
  refine ⟨?_, ?_, by norm_num, by norm_num⟩
  · simp only [analyze_bias, BiasDetectionService.calculate_confidence]
    rw [if_pos (by norm_num [predsN])]
  · rw [group_by_demographics_predsN]
    unfold confidence_formula_spec
    norm_num [ProtectedAttribute.all, ProtectedAttribute.value, alookup,
      predsN, min_def]

/-- C9 (amended): the report's `confidence_score` equals
`0.4 × min(total/1000, 1) + 0.6 × mean over attributes of
min(valid_group_count/3, 1)` whenever `total ≥ 100`; whenever
`total < 100` the score is exactly `0.3`, whether the formula is below or
above it. -/
theorem c9_confidence_formula (sqrtFn normCdf : ℚ → ℚ) (preds : List BiasPred)
    (outcomes : List (String × Bool)) :
    (100 ≤ preds.length →
      (analyze_bias sqrtFn normCdf preds outcomes).confidence_score
        = confidence_formula_spec preds (group_by_demographics preds))
    ∧ (preds.length < 100 →
      (analyze_bias sqrtFn normCdf preds outcomes).confidence_score = 0.3) := by
  constructor
  · intro h
    simp only [analyze_bias, BiasDetectionService.calculate_confidence]
    rw [if_neg (by omega)]
    rfl
  · intro h
    simp only [analyze_bias, BiasDetectionService.calculate_confidence]
    rw [if_pos h]

/-- Witness for C9 (amended) on batches of 100 and 50 predictions. -/
theorem c9_confidence_formula_witness :
    (analyze_bias (fun _ => 0) (fun _ => 0) (predsN 100) []).confidence_score
      = confidence_formula_spec (predsN 100) (group_by_demographics (predsN 100))
    ∧ (analyze_bias (fun _ => 0) (fun _ => 0) (predsN 99) []).confidence_score = 0.3 :=
  ⟨(c9_confidence_formula (fun _ => 0) (fun _ => 0) (predsN 100) []).1
      (by norm_num [predsN]),
   (c9_confidence_formula (fun _ => 0) (fun _ => 0) (predsN 99) []).2
      (by norm_num [predsN])⟩

/-- C4: each category's score is the sum of `contribution × importance_weight`
over the category's features present in the map, divided by the total
importance weight of all catalog features of that category; a category with
no present features yields exactly `0`. -/
theorem c4_category_scores (features : Features) (cat : FeatureCategory) :
    alookup cat.value (calculate_category_scores features)
      = some ((category_contributions features cat).sum
          / ((RISK_FEATURES.filter
                (fun f => f.category.value = cat.value)).map
              (fun f => f.importance_weight)).sum)
    ∧ (category_contributions features cat = [] →
        alookup cat.value (calculate_category_scores features) = some 0) := by
  have key : alookup cat.value (calculate_category_scores features)
      = some (if category_contributions features cat = [] then 0
          else (category_contributions features cat).sum
            / ((RISK_FEATURES.filter
                  (fun f => f.category.value = cat.value)).map
                (fun f => f.importance_weight)).sum) := by
    cases cat <;>
      simp [calculate_category_scores, FeatureCategory.all, alookup,
        FeatureCategory.value]
  constructor
  · rw [key]
    by_cases hv : category_contributions features cat = []
    · rw [if_pos hv, hv]
      simp
    · rw [if_neg hv]
  · intro hv
    rw [key, if_pos hv]

/-- Witness for C4 with an empty feature map and the academic category. -/
theorem c4_category_scores_witness :
    alookup "academic" (calculate_category_scores []) = some 0 :=
  (c4_category_scores [] FeatureCategory.academic).2 rfl

/-- The feature names of the catalog are pairwise distinct, so a factor's
feature name identifies the catalog entry it came from. -/
theorem risk_feature_names_nodup :
    (RISK_FEATURES.map (fun f => f.name)).Nodup := by
  decide

/-- Unfolding of `mkRiskFactor` when the feature is present and contributes. -/
theorem mkRiskFactor_of_pos {features : Features} {fd : FeatureDefinition}
    {v : ℚ} (hv : alookup fd.name features = some v)
    (hc : normalize_risk_contribution fd v > 0.3) :
    mkRiskFactor features fd = some
      { feature := fd.name, category := fd.category,
        description := fd.description, current_value := .num v,
        contribution := normalize_risk_contribution fd v * fd.importance_weight,
        severity := if normalize_risk_contribution fd v > 0.7 then "high"
          else if normalize_risk_contribution fd v > 0.5 then "medium"
          else "low",
        threshold := if fd.risk_direction = "high_is_risk" then fd.threshold_high
          else fd.threshold_low,
        recommendation := fd.recommendation_template.map (formatTemplate · v) } := by
  unfold mkRiskFactor
  simp only [hv]
  rw [if_pos hc]

/-- `mkRiskFactor` yields nothing when the contribution does not exceed 0.3. -/
theorem mkRiskFactor_of_nonpos {features : Features} {fd : FeatureDefinition}
    {v : ℚ} (hv : alookup fd.name features = some v)
    (hc : ¬normalize_risk_contribution fd v > 0.3) :
    mkRiskFactor features fd = Option.none := by
  unfold mkRiskFactor
  simp only [hv]
  rw [if_neg hc]

/-- Inversion of `mkRiskFactor`. -/
theorem mkRiskFactor_inv {features : Features} {fd : FeatureDefinition}
    {f : RiskFactor} (h : mkRiskFactor features fd = some f) :
    ∃ v, alookup fd.name features = some v
      ∧ normalize_risk_contribution fd v > 0.3
      ∧ f.feature = fd.name
      ∧ f.contribution = normalize_risk_contribution fd v * fd.importance_weight
      ∧ f.severity = (if normalize_risk_contribution fd v > 0.7 then "high"
          else if normalize_risk_contribution fd v > 0.5 then "medium"
          else "low") := by
  unfold mkRiskFactor at h
  cases hv : alookup fd.name features with
  | none => exact absurd h (by simp [hv])
  | some v =>
    simp only [hv] at h
    by_cases hc : normalize_risk_contribution fd v > 0.3
    · rw [if_pos hc] at h
      obtain rfl := Option.some.inj h
      exact ⟨v, rfl, hc, rfl, rfl, rfl⟩
    · rw [if_neg hc] at h
      cases h

/-- Unfolding of `mkProtectiveFactor` when the feature protects. -/
theorem mkProtectiveFactor_of_pos {features : Features} {fd : FeatureDefinition}
    {v : ℚ} (hv : alookup fd.name features = some v)
    (hc : normalize_risk_contribution fd v < 0.3) :
    mkProtectiveFactor features fd = some
      { feature := fd.name, category := fd.category,
        description := fd.description, current_value := .num v,
        contribution := (1 - normalize_risk_contribution fd v) * fd.importance_weight } := by
  unfold mkProtectiveFactor
  simp only [hv]
  rw [if_pos hc]

/-- `mkProtectiveFactor` yields nothing at contribution 0.3 or above. -/
theorem mkProtectiveFactor_of_nonpos {features : Features} {fd : FeatureDefinition}
    {v : ℚ} (hv : alookup fd.name features = some v)
    (hc : ¬normalize_risk_contribution fd v < 0.3) :
    mkProtectiveFactor features fd = Option.none := by
  unfold mkProtectiveFactor
  simp only [hv]
  rw [if_neg hc]

/-- Inversion of `mkProtectiveFactor`. -/
theorem mkProtectiveFactor_inv {features : Features} {fd : FeatureDefinition}
    {g : ProtectiveFactor} (h : mkProtectiveFactor features fd = some g) :
    ∃ v, alookup fd.name features = some v
      ∧ normalize_risk_contribution fd v < 0.3
      ∧ g.feature = fd.name
      ∧ g.contribution
          = (1 - normalize_risk_contribution fd v) * fd.importance_weight := by
  unfold mkProtectiveFactor at h
  cases hv : alookup fd.name features with
  | none => exact absurd h (by simp [hv])
  | some v =>
    simp only [hv] at h
    by_cases hc : normalize_risk_contribution fd v < 0.3
    · rw [if_pos hc] at h
      obtain rfl := Option.some.inj h
      exact ⟨v, rfl, hc, rfl, rfl⟩
    · rw [if_neg hc] at h
      cases h

/-- C2: a present feature becomes a risk factor exactly when its
contribution exceeds `0.3` (severity `high` above `0.7`, `medium` above
`0.5`, else `low`; weighted contribution recorded), the risk-factor list is
sorted by weighted contribution descending with the top 5 kept in the
prediction; it becomes a protective factor exactly when its contribution is
below `0.3`, scored `(1 − contribution) × importance_weight`, sorted
descending with the top 3 kept. -/
theorem c2_explainability_ranking (score : List ℚ → ℚ) (sid now : String)
    (prev : Option ℚ) (features : Features) (fd : FeatureDefinition)
    (hfd : fd ∈ RISK_FEATURES) (v : ℚ)
    (hv : alookup fd.name features = some v) :
    (normalize_risk_contribution fd v > 0.3 →
      ∃ f ∈ identify_risk_factors features,
        f.feature = fd.name
        ∧ f.contribution = normalize_risk_contribution fd v * fd.importance_weight
        ∧ f.severity = (if normalize_risk_contribution fd v > 0.7 then "high"
            else if normalize_risk_contribution fd v > 0.5 then "medium"
            else "low"))
    ∧ (¬normalize_risk_contribution fd v > 0.3 →
        ∀ f ∈ identify_risk_factors features, f.feature ≠ fd.name)
    ∧ List.Sorted riskFactorGE (identify_risk_factors features)
    ∧ (computePrediction score sid now prev features).top_risk_factors
        = (identify_risk_factors features).take 5
    ∧ (normalize_risk_contribution fd v < 0.3 →
      ∃ g ∈ identify_protective_factors features,
        g.feature = fd.name
        ∧ g.contribution
            = (1 - normalize_risk_contribution fd v) * fd.importance_weight)
    ∧ (¬normalize_risk_contribution fd v < 0.3 →
        ∀ g ∈ identify_protective_factors features, g.feature ≠ fd.name)
    ∧ List.Sorted protectiveFactorGE (identify_protective_factors features)
    ∧ (computePrediction score sid now prev features).protective_factors
        = (identify_protective_factors features).take 3 := by
  refine ⟨?_, ?_, ?_, rfl, ?_, ?_, ?_, rfl⟩
  · intro hc
    obtain ⟨F, hF⟩ : ∃ F, mkRiskFactor features fd = some F :=
      ⟨_, mkRiskFactor_of_pos hv hc⟩
    obtain ⟨v', hv', hc', hfeat, hcontrib, hsev⟩ := mkRiskFactor_inv hF
    rw [hv] at hv'
    obtain rfl := Option.some.inj hv'
    refine ⟨F, ?_, hfeat, hcontrib, hsev⟩
    unfold identify_risk_factors
    rw [List.mem_insertionSort]
    exact List.mem_filterMap.mpr ⟨fd, hfd, hF⟩
  · intro hc f hf hname
    unfold identify_risk_factors at hf
    rw [List.mem_insertionSort] at hf
    obtain ⟨fd', hfd', hmk⟩ := List.mem_filterMap.mp hf
    obtain ⟨v', hv', hc', hfeat, -, -⟩ := mkRiskFactor_inv hmk
    have hfd'fd : fd' = fd :=
      List.inj_on_of_nodup_map risk_feature_names_nodup hfd' hfd
        (by rw [← hfeat]; exact hname)
    subst hfd'fd
    rw [hv] at hv'
    obtain rfl := Option.some.inj hv'
    exact hc hc'
  · unfold identify_risk_factors
    exact List.sorted_insertionSort riskFactorGE _
  · intro hc
    obtain ⟨G, hG⟩ : ∃ G, mkProtectiveFactor features fd = some G :=
      ⟨_, mkProtectiveFactor_of_pos hv hc⟩
    obtain ⟨v', hv', hc', hfeat, hcontrib⟩ := mkProtectiveFactor_inv hG
    rw [hv] at hv'
    obtain rfl := Option.some.inj hv'
    refine ⟨G, ?_, hfeat, hcontrib⟩
    unfold identify_protective_factors
    rw [List.mem_insertionSort]
    exact List.mem_filterMap.mpr ⟨fd, hfd, hG⟩
  · intro hc g hg hname
    unfold identify_protective_factors at hg
    rw [List.mem_insertionSort] at hg
    obtain ⟨fd', hfd', hmk⟩ := List.mem_filterMap.mp hg
    obtain ⟨v', hv', hc', hfeat, -⟩ := mkProtectiveFactor_inv hmk
    have hfd'fd : fd' = fd :=
      List.inj_on_of_nodup_map risk_feature_names_nodup hfd' hfd
        (by rw [← hfeat]; exact hname)
    subst hfd'fd
    rw [hv] at hv'
    obtain rfl := Option.some.inj hv'
    exact hc hc'
  · unfold identify_protective_factors
    exact List.sorted_insertionSort protectiveFactorGE _

/-- Witness for C2 on the feature map `{"current_mastery": 0.1}` (mastery
`0.1` is below `threshold_low = 0.4` of the `low_is_risk` feature, so the
contribution is `1`, a risk factor of severity `high`). -/
theorem c2_explainability_ranking_witness :
    List.Sorted riskFactorGE (identify_risk_factors [("current_mastery", 0.1)])
    ∧ (∃ f ∈ identify_risk_factors [("current_mastery", 0.1)],
        f.feature = "current_mastery") := by
  have h := c2_explainability_ranking (fun _ => 0) "s" "t" Option.none
    [("current_mastery", 0.1)]
    { name := "current_mastery", category := .academic,
      description := "Current overall mastery level across all skills",
      risk_direction := "low_is_risk",
      threshold_low := some 0.4, threshold_high := some 0.7,
      importance_weight := 0.15,
      recommendation_template :=
        some "Consider focused practice on skills below 50% mastery" }
    (by simp [RISK_FEATURES]) 0.1 rfl
  have hn : normalize_risk_contribution
      { name := "current_mastery", category := .academic,
        description := "Current overall mastery level across all skills",
        risk_direction := "low_is_risk",
        threshold_low := some 0.4, threshold_high := some 0.7,
        importance_weight := 0.15,
        recommendation_template :=
          some "Consider focused practice on skills below 50% mastery" }
      (0.1 : ℚ) = 1 := by
    rw [normalize_risk_contribution_eq _ 0.4 0.7 rfl rfl 0.1]
    rw [if_neg (by decide), if_neg (by norm_num), if_pos (by norm_num)]
  refine ⟨h.2.2.1, ?_⟩
  obtain ⟨f, hf, hfeat, _⟩ := h.1 (by rw [hn]; norm_num)
  exact ⟨f, hf, hfeat⟩

/-- A `RiskLevel` round-trips through its string value. -/
theorem riskLevel_ofValue_value (l : RiskLevel) :
    RiskLevel.ofValue l.value = some l := by
  cases l <;> rfl

/-- A `RiskTrend` round-trips through its string value. -/
theorem riskTrend_ofValue_value (t : RiskTrend) :
    RiskTrend.ofValue t.value = some t := by
  cases t <;> rfl

/-- Mapping then traversing with an elementwise inverse recovers the list. -/
theorem mapM_roundtrip {α β : Type} {g : α → β} {f : β → Option α}
    (h : ∀ x, f (g x) = some x) :
    ∀ l : List α, (l.map g).mapM f = some l
  | [] => rfl
  | x :: xs => by
    rw [List.map_cons, List.mapM_cons, h x, mapM_roundtrip h xs]
    rfl

/-- A serialized risk factor deserializes to itself. -/
theorem parseRiskFactor_roundtrip (f : RiskFactor) :
    parseRiskFactor (serializeRiskFactor f) = some f := by
  obtain ⟨a, b, c, d, e, g, h, i⟩ := f
  cases b <;> cases d <;> cases h <;> cases i <;> rfl

/-- A serialized protective factor deserializes to itself. -/
theorem parseProtectiveFactor_roundtrip (f : ProtectiveFactor) :
    parseProtectiveFactor (serializeProtectiveFactor f) = some f := by
  obtain ⟨a, b, c, d, e⟩ := f
  cases b <;> cases d <;> rfl

/-- A serialized category-score map deserializes to itself. -/
theorem parseCategoryScores_roundtrip (cs : List (String × ℚ)) :
    parseCategoryScores (Json.obj (cs.map (fun kv => (kv.1, Json.num kv.2))))
      = some cs :=
  mapM_roundtrip (fun x => by cases x; rfl) cs

/-- The header fields of a serialized prediction read back unchanged. -/
theorem parse_header_serialize (p : RiskPrediction) :
    parsePredictionHeader (serialize_prediction p)
      = some (p.student_id, p.timestamp, p.risk_score, p.risk_level,
          p.confidence) := by
  obtain ⟨sid, ts, rs, rl, conf, cs, trf, pf, rt, prs, sc, mv⟩ := p
  cases rl <;> rfl

/-- The trailing fields of a serialized prediction read back unchanged. -/
theorem parse_tail_serialize (p : RiskPrediction) :
    parsePredictionTail (serialize_prediction p)
      = some (p.risk_trend, p.previous_risk_score, p.score_change,
          p.model_version) := by
  obtain ⟨sid, ts, rs, rl, conf, cs, trf, pf, rt, prs, sc, mv⟩ := p
  cases rt <;> cases prs <;> cases sc <;> rfl

/-- The nested collections of a serialized prediction read back unchanged. -/
theorem parse_lists_serialize (p : RiskPrediction) :
    parsePredictionLists (serialize_prediction p)
      = some (p.category_scores, p.top_risk_factors, p.protective_factors) := by
  obtain ⟨sid, ts, rs, rl, conf, cs, trf, pf, rt, prs, sc, mv⟩ := p
  show (parseCategoryScores (Json.obj (cs.map (fun kv => (kv.1, Json.num kv.2))))
      >>= fun a => ((trf.map serializeRiskFactor).mapM parseRiskFactor)
      >>= fun b => ((pf.map serializeProtectiveFactor).mapM parseProtectiveFactor)
      >>= fun c => pure (a, b, c)) = some (cs, trf, pf)
  rw [parseCategoryScores_roundtrip,
    mapM_roundtrip parseRiskFactor_roundtrip trf,
    mapM_roundtrip parseProtectiveFactor_roundtrip pf]
  rfl

/-- C8: deserializing the serialized form of any `RiskPrediction` restores
every field, including the nested risk-factor and protective-factor lists
and the category-score map. -/
theorem c8_serialize_roundtrip (p : RiskPrediction) :
    deserialize_prediction (serialize_prediction p) = some p := by
  unfold deserialize_prediction
  rw [parse_header_serialize, parse_lists_serialize, parse_tail_serialize]
  rfl

/-- Distinct protected attributes have distinct `.value` strings. -/
theorem pa_value_injective (a b : ProtectedAttribute) (h : a.value = b.value) :
    a = b := by
  cases a <;> cases b <;> first | rfl | exact absurd h (by decide)

/-- A keyed `filterMap` over the attributes has no entry for `key` when every
attribute either produces nothing or carries a different key. -/
theorem alookup_filterMap_none {α : Type} (key : String)
    (l : List ProtectedAttribute) (f : ProtectedAttribute → Option α)
    (h : ∀ x ∈ l, f x = Option.none ∨ x.value ≠ key) :
    alookup key (l.filterMap (fun x => (f x).map (fun s => (x.value, s))))
      = Option.none := by
  induction l with
  | nil => rfl
  | cons x xs ih =>
    have htail := ih (fun y hy => h y (List.mem_cons_of_mem x hy))
    rcases h x (List.mem_cons_self x xs) with hx | hx
    · rw [List.filterMap_cons]
      simp only [hx, Option.map_none']
      exact htail
    · cases hfx : f x with
      | none =>
        rw [List.filterMap_cons]
        simp only [hfx, Option.map_none']
        exact htail
      | some s =>
        rw [List.filterMap_cons]
        simp only [hfx, Option.map_some']
        unfold alookup
        rw [if_neg hx]
        exact htail

/-- A keyed `map` over the attributes looks up to the entry of `a`. -/
theorem alookup_map_value {α : Type} (a : ProtectedAttribute)
    (l : List ProtectedAttribute) (g : ProtectedAttribute → α) (ha : a ∈ l) :
    alookup a.value (l.map (fun x => (x.value, g x))) = some (g a) := by
  induction l with
  | nil => cases ha
  | cons x xs ih =>
    rw [List.map_cons]
    unfold alookup
    by_cases hx : x.value = a.value
    · rw [if_pos hx]
      obtain rfl := pa_value_injective x a hx
      rfl
    · rw [if_neg hx]
      rcases List.mem_cons.mp ha with rfl | ha'
      · exact absurd rfl hx
      · exact ih ha'

/-- Every equalized-odds result carries the attribute it was computed for. -/
theorem mem_equalized_odds_attr {a : ProtectedAttribute} {r : FairnessResult}
    {ref cmp : GroupStatistics} (h : r ∈ evaluate_equalized_odds a ref cmp) :
    r.attr = a := by
  unfold evaluate_equalized_odds at h
  rcases List.mem_append.mp h with h1 | h1
  · cases hr : ref.false_positive_rate with
    | none => rw [hr] at h1; cases h1
    | some rf =>
      cases hc : cmp.false_positive_rate with
      | none => rw [hr, hc] at h1; cases h1
      | some cf =>
        rw [hr, hc] at h1
        obtain rfl := List.mem_singleton.mp h1
        rfl
  · cases hr : ref.false_negative_rate with
    | none => rw [hr] at h1; cases h1
    | some rf =>
      cases hc : cmp.false_negative_rate with
      | none => rw [hr, hc] at h1; cases h1
      | some cf =>
        rw [hr, hc] at h1
        obtain rfl := List.mem_singleton.mp h1
        rfl

/-- Every result appended by the `analyze_bias` loop for an attribute
carries that attribute. -/
theorem attributeResults_attr (sqrtFn normCdf : ℚ → ℚ)
    (om : List (String × Bool))
    (grouped : List (String × List (String × List BiasPred)))
    (a : ProtectedAttribute) :
    ∀ r ∈ attributeResults sqrtFn normCdf om grouped a, r.attr = a := by
  intro r hr
  simp only [attributeResults] at hr
  by_cases hlen : (attributeValidGroups grouped a).length < 2
  · rw [if_pos hlen] at hr
    cases hr
  · rw [if_neg hlen] at hr
    obtain ⟨stats, _, hmem⟩ := List.mem_flatMap.mp hr
    by_cases heq : stats.group_name
        = maxByLen (attributeValidGroups grouped a)
    · rw [if_pos heq] at hmem
      cases hmem
    · rw [if_neg heq] at hmem
      rcases List.mem_append.mp hmem with h2 | h2
      · rcases List.mem_cons.mp h2 with rfl | h2
        · rfl
        · obtain rfl := List.mem_singleton.mp h2
          rfl
      · by_cases hom : om = []
        · rw [if_pos hom] at h2
          cases h2
        · rw [if_neg hom] at h2
          exact mem_equalized_odds_attr h2

/-- C10: when fewer than two groups of an attribute reach the minimum group
size of 30, the report of `analyze_bias` has no `group_statistics` entry and
no `FairnessResult` for that attribute, while `demographic_coverage` still
counts every prediction carrying a value for it. -/
theorem c10_insufficient_groups (sqrtFn normCdf : ℚ → ℚ)
    (preds : List BiasPred) (outcomes : List (String × Bool))
    (a : ProtectedAttribute)
    (h : (attributeValidGroups (group_by_demographics preds) a).length < 2) :
    alookup a.value
        (analyze_bias sqrtFn normCdf preds outcomes).group_statistics
      = Option.none
    ∧ (∀ r ∈ (analyze_bias sqrtFn normCdf preds outcomes).fairness_results,
        r.attr ≠ a)
    ∧ alookup a.value
        (analyze_bias sqrtFn normCdf preds outcomes).demographic_coverage
      = some (preds.countP
          (fun p => (alookup a.value p.demographics).isSome)) := by
  refine ⟨?_, ?_, ?_⟩
  · show alookup a.value
        (ProtectedAttribute.all.filterMap (fun x =>
          (attributeGroupStats sqrtFn outcomes
              (group_by_demographics preds) x).map (fun s => (x.value, s))))
      = Option.none
    apply alookup_filterMap_none
    intro x _
    by_cases hxa : x = a
    · subst hxa
      left
      simp only [attributeGroupStats]
      rw [if_pos h]
    · right
      intro hv
      exact hxa (pa_value_injective x a hv)
  · intro r hr hra
    obtain ⟨x, _, hrx⟩ :=
      List.mem_flatMap.mp
        (show r ∈ ProtectedAttribute.all.flatMap
            (attributeResults sqrtFn normCdf outcomes
              (group_by_demographics preds)) from hr)
    have hxattr := attributeResults_attr sqrtFn normCdf outcomes
      (group_by_demographics preds) x r hrx
    have hxa : x = a := by rw [← hxattr, hra]
    subst hxa
    simp only [attributeResults] at hrx
    rw [if_pos h] at hrx
    cases hrx
  · show alookup a.value
        (ProtectedAttribute.all.map (fun x =>
          (x.value, preds.countP
            (fun p => (alookup x.value p.demographics).isSome))))
      = _
    exact alookup_map_value a _ _ (by cases a <;> decide)

/-- Witness for C10 on the empty batch and the gender attribute. -/
theorem c10_insufficient_groups_witness :
    alookup "gender"
        (analyze_bias (fun _ => 0) (fun _ => 0) [] []).group_statistics
      = Option.none
    ∧ alookup "gender"
        (analyze_bias (fun _ => 0) (fun _ => 0) [] []).demographic_coverage
      = some 0 := by
  have h := c10_insufficient_groups (fun _ => 0) (fun _ => 0) [] []
    ProtectedAttribute.gender (by decide)
  exact ⟨h.1, h.2.2⟩
